import Mathlib

/-!
Verification of the binlog sync core of `iyidan/go-mysql` (`canal/sync.go`).

The Go source is shallowly embedded: the event-pull loop body becomes a pure
step function over an explicit state record, external collaborators (the
position tracker's `Save`, the master-info sink, `GetTable`, the downstream
row handlers) become per-iteration oracle inputs, and the `expAlterTable`
regular expression becomes a small backtracking matcher with Go/PCRE
leftmost-first preference semantics, instantiated at the exact pattern
of sync.go line 17.
-/

/-! ## A tiny regex engine with leftmost-first (backtracking) semantics

`canal/sync.go` line 17 declares

  expAlterTable = regexp.MustCompile("(?i)^ALTER\\sTABLE\\s.*?`\x7b0,1\x7d(.*?)`\x7b0,1\x7d\\.\x7b0,1\x7d`\x7b0,1\x7d([^`\\.]+?)`\x7b0,1\x7d\\s.*")

Go's regexp produces the same submatches as a left-to-right backtracking
search (leftmost-first preference).  We embed exactly the constructs this
pattern uses: case-insensitive literals (the `(?i)` flag), character
classes, sequencing, greedy `?`, lazy `*?` and `+?`, greedy `*`, and
capture groups.  `fuel` bounds the recursion depth; all uses supply ample
fuel for the concrete statements evaluated. -/

inductive RE : Type where
  | eps : RE
  | lit : Char → RE
  | cls : (Char → Bool) → RE
  | seq : RE → RE → RE
  | opt : RE → RE
  | starL : RE → RE
  | starG : RE → RE
  | plusL : RE → RE
  | group : RE → RE

/-- Backtracking matcher in continuation-passing style.  The continuation
receives the remaining input and the capture list; alternatives are tried
in preference order, first success wins. -/
def reM : Nat → RE → List Char → List (List Char) →
    (List Char → List (List Char) → Option (List (List Char))) →
    Option (List (List Char))
  | 0, _, _, _, _ => none
  | _ + 1, RE.eps, s, caps, k => k s caps
  | _ + 1, RE.lit c, s, caps, k =>
    match s with
    | [] => none
    | a :: rest => if a.toLower = c.toLower then k rest caps else none
  | _ + 1, RE.cls p, s, caps, k =>
    match s with
    | [] => none
    | a :: rest => if p a then k rest caps else none
  | fuel + 1, RE.seq r1 r2, s, caps, k =>
    reM fuel r1 s caps (fun s1 caps1 => reM fuel r2 s1 caps1 k)
  | fuel + 1, RE.opt r, s, caps, k =>
    (reM fuel r s caps k).orElse (fun _ => k s caps)
  | fuel + 1, RE.starL r, s, caps, k =>
    (k s caps).orElse (fun _ =>
      reM fuel r s caps (fun s1 caps1 =>
        if s1.length = s.length then none else reM fuel (RE.starL r) s1 caps1 k))
  | fuel + 1, RE.starG r, s, caps, k =>
    (reM fuel r s caps (fun s1 caps1 =>
      if s1.length = s.length then none else reM fuel (RE.starG r) s1 caps1 k)).orElse
      (fun _ => k s caps)
  | fuel + 1, RE.plusL r, s, caps, k =>
    reM fuel r s caps (fun s1 caps1 =>
      (k s1 caps1).orElse (fun _ =>
        if s1.length = s.length then none else reM fuel (RE.plusL r) s1 caps1 k))
  | fuel + 1, RE.group r, s, caps, k =>
    reM fuel r s caps (fun s1 caps1 =>
      k s1 (caps1 ++ [s.take (s.length - s1.length)]))

/-- Sequence a list of regexes. -/
def seqAll (l : List RE) : RE := l.foldr RE.seq RE.eps

/-- Case-insensitive literal word. -/
def strRE (s : String) : RE := seqAll (s.data.map RE.lit)

/-- The backtick character, written by code point to keep source plain. -/
def tick : Char := Char.ofNat 96

/-- Go regexp `\s` is the class [\t\n\f\r ]. -/
def wsRE : RE := RE.cls (fun c =>
  c == ' ' || c == '\t' || c == '\n' || c == '\x0c' || c == '\x0d')

/-- Go regexp `.` matches any character except newline. -/
def dotRE : RE := RE.cls (fun c => c != '\n')

/-- The class from the pattern that excludes backtick and literal dot. -/
def notTickDotRE : RE := RE.cls (fun c => !(c == tick || c == '.'))

/-- `expAlterTable`, sync.go line 17, translated construct by construct:
anchored `ALTER\sTABLE\s`, a lazy gap, optional backtick, lazy group 1,
optional backtick, optional dot, optional backtick, lazy nonempty group 2
over the no-backtick-no-dot class, optional backtick, one whitespace,
greedy tail. -/
def expAlterTable : RE :=
  seqAll [strRE "ALTER", wsRE, strRE "TABLE", wsRE,
    RE.starL dotRE, RE.opt (RE.lit tick), RE.group (RE.starL dotRE),
    RE.opt (RE.lit tick), RE.opt (RE.lit '.'), RE.opt (RE.lit tick),
    RE.group (RE.plusL notTickDotRE), RE.opt (RE.lit tick),
    wsRE, RE.starG dotRE]

/-- `expAlterTable.FindSubmatch(q)` reduced to the two capture groups:
`some (schema, table)` on a match (the pattern is anchored by `^`, so
only position 0 is tried), `none` otherwise. -/
def expAlterTableFind (q : String) : Option (String × String) :=
  match reM (40 * q.length + 400) expAlterTable q.data [] (fun _ caps => some caps) with
  | some (g1 :: g2 :: _) => some (String.mk g1, String.mk g2)
  | _ => none

example : expAlterTableFind "ALTER TABLE `shop`.`orders` ADD COLUMN x INT" =
    some ("shop", "orders") := by decide
example : expAlterTableFind "ALTER TABLE orders RENAME COLUMN c1 TO c2" =
    some ("", "orders") := by decide
example : expAlterTableFind "CREATE TABLE orders (id INT)" = none := by decide
example : expAlterTableFind "alter table orders add column x int" =
    some ("", "orders") := by decide

/-! ## Data model

Event kinds, row actions and the sync-loop state.  External collaborators
(the position tracker's persist `Save`, the optional master-info handler's
`SavePos`, `GetTable`, and the downstream row handlers reached through
`travelRowsEventHandler`) live outside this file's unit; their outcomes for
one loop iteration are supplied as an `Env` oracle record. -/

/-- Row actions of the canal package (`InsertAction`/`UpdateAction`/
`DeleteAction`). -/
inductive RowAction : Type where
  | Insert : RowAction
  | Update : RowAction
  | Delete : RowAction
deriving DecidableEq

/-- Binlog event types of the replication package that are relevant to
`handleRowsEvent`'s switch, plus representatives of the open set of other
types that fall into its default branch. -/
inductive EventType : Type where
  | UNKNOWN_EVENT | QUERY_EVENT | ROTATE_EVENT | XID_EVENT | TABLE_MAP_EVENT
  | WRITE_ROWS_EVENTv0 | UPDATE_ROWS_EVENTv0 | DELETE_ROWS_EVENTv0
  | WRITE_ROWS_EVENTv1 | UPDATE_ROWS_EVENTv1 | DELETE_ROWS_EVENTv1
  | WRITE_ROWS_EVENTv2 | UPDATE_ROWS_EVENTv2 | DELETE_ROWS_EVENTv2
  | GTID_EVENT
deriving DecidableEq

/-- The display name used when formatting the unsupported-type error of
sync.go line 158. -/
def eventTypeName : EventType → String
  | .UNKNOWN_EVENT => "UnknownEvent"
  | .QUERY_EVENT => "QueryEvent"
  | .ROTATE_EVENT => "RotateEvent"
  | .XID_EVENT => "XIDEvent"
  | .TABLE_MAP_EVENT => "TableMapEvent"
  | .WRITE_ROWS_EVENTv0 => "WriteRowsEventV0"
  | .UPDATE_ROWS_EVENTv0 => "UpdateRowsEventV0"
  | .DELETE_ROWS_EVENTv0 => "DeleteRowsEventV0"
  | .WRITE_ROWS_EVENTv1 => "WriteRowsEventV1"
  | .UPDATE_ROWS_EVENTv1 => "UpdateRowsEventV1"
  | .DELETE_ROWS_EVENTv1 => "DeleteRowsEventV1"
  | .WRITE_ROWS_EVENTv2 => "WriteRowsEventV2"
  | .UPDATE_ROWS_EVENTv2 => "UpdateRowsEventV2"
  | .DELETE_ROWS_EVENTv2 => "DeleteRowsEventV2"
  | .GTID_EVENT => "GTIDEvent"

/-- The action switch of `handleRowsEvent`, sync.go lines 150-159: the two
on-wire sub-versions of write/delete/update map to an action, everything
else is the unsupported-operation error of line 158. -/
def actionOf (t : EventType) : Except String RowAction :=
  match t with
  | .WRITE_ROWS_EVENTv1 => Except.ok RowAction.Insert
  | .WRITE_ROWS_EVENTv2 => Except.ok RowAction.Insert
  | .DELETE_ROWS_EVENTv1 => Except.ok RowAction.Delete
  | .DELETE_ROWS_EVENTv2 => Except.ok RowAction.Delete
  | .UPDATE_ROWS_EVENTv1 => Except.ok RowAction.Update
  | .UPDATE_ROWS_EVENTv2 => Except.ok RowAction.Update
  | t => Except.error (eventTypeName t ++ " not supported now")

/-- Payload of a `replication.RowsEvent` as `handleRowsEvent` reads it:
`ev.Table.Schema`, `ev.Table.Table`, the header event type, and the rows. -/
structure RowsData : Type where
  schema : String
  table : String
  eventType : EventType
  rows : List (List Int)
deriving DecidableEq

/-- Body of one received binlog event, by the cases of the switch at
sync.go line 61; `other` is the default branch. -/
inductive EventBody : Type where
  | rotate (nextLogName : String) (position : Nat) : EventBody
  | rows (d : RowsData) : EventBody
  | xid : EventBody
  | query (schema : String) (queryText : String) : EventBody
  | other : EventBody
deriving DecidableEq

/-- Result of one `s.GetEvent(ctx)` pull, sync.go lines 37-48: a deadline
timeout, another error, or an event with its header's LogPos. -/
inductive PullResult : Type where
  | timeout : PullResult
  | err (msg : String) : PullResult
  | ev (logPos : Nat) (body : EventBody) : PullResult
deriving DecidableEq

/-- Oracle outcomes of the external collaborator calls one iteration can
make: `c.master.Save` (returning whether a persist happened), presence of
the master-info handler and its `SavePos` outcome, `c.GetTable`, and the
downstream dispatch via `travelRowsEventHandler`. -/
structure Env : Type where
  saveResult : Except String Bool
  hasHandler : Bool
  sinkResult : Except String Unit
  getTable : Except String Unit
  dispatch : Except String Unit

/-- State threaded through loop iterations plus observable effect logs:
`posName`/`posPos` are the local `pos` variable, `timeout` the (dead)
backoff variable of line 33, `skiped` the package-global
`skipedSchemaList`, `masterName`/`masterPos` the tracker after `Update`,
and the lists record Save calls `(name, pos, forced)`, sink `SavePos`
calls, `ClearTableCache` calls, dispatched change records, and the
schemas for which the skipped log note was emitted. -/
structure SyncState : Type where
  posName : String
  posPos : Nat
  timeout : Nat
  skiped : List String
  masterName : String
  masterPos : Nat
  saves : List (String × Nat × Bool)
  sinkSaves : List (String × Nat)
  cacheCleared : List (String × String)
  dispatched : List (String × String × RowAction × List (List Int))
  skipLogs : List String
deriving DecidableEq

/-- Loop state at `startSyncBinlog` entry: position from the master info,
`timeout := time.Second` (1 unit), empty effect logs. -/
def initSyncState (name : String) (p : Nat) : SyncState :=
  { posName := name, posPos := p, timeout := 1, skiped := [],
    masterName := name, masterPos := p, saves := [], sinkSaves := [],
    cacheCleared := [], dispatched := [], skipLogs := [] }

/-- The deadline given to every `GetEvent` pull: sync.go line 37 passes
the constant `2*time.Second` to `context.WithTimeout`; the `timeout`
variable maintained at lines 33, 42 and 50 is never read there. -/
def getEventWait (_st : SyncState) : Nat := 2

/-- `isSkipedSchema`, sync.go lines 111-132, as a function of the schema
scope `c.cfg.Dump.TableDB`, the argument schema, and the shared
`skipedSchemaList`; returns (skip decision, new list, whether the skipped
log note is emitted this call). -/
def isSkipedSchema (tableDB schema : String) (l : List String) :
    Bool × List String × Bool :=
  if tableDB ≠ "" ∧ tableDB ≠ schema then
    if schema ∈ l then (true, l, false) else (true, l ++ [schema], true)
  else (false, l, false)

/-- The save step of sync.go lines 94-105: `master.Update(pos)`, then
`master.Save(forced)`; on persist and a present handler, `SavePos`.
The second component is the fatal error terminating the loop, if any. -/
def saveStep (env : Env) (forced : Bool) (st : SyncState) :
    SyncState × Option String :=
  let st1 :=
    { st with
      masterName := st.posName,
      masterPos := st.posPos,
      saves := st.saves ++ [(st.posName, st.posPos, forced)] }
  match env.saveResult with
  | Except.error e => (st1, some e)
  | Except.ok posSaved =>
    if posSaved then
      if env.hasHandler then
        let st2 := { st1 with sinkSaves := st1.sinkSaves ++ [(st.posName, st.posPos)] }
        match env.sinkResult with
        | Except.error e => (st2, some e)
        | Except.ok _ => (st2, none)
      else (st1, none)
    else (st1, none)

/-- `handleRowsEvent`, sync.go lines 134-162: schema filter (with its
memo-list update and one-shot log), then `GetTable`, the action switch,
and dispatch to the registered handlers. -/
def handleRowsEvent (tableDB : String) (env : Env) (d : RowsData)
    (st : SyncState) : SyncState × Option String :=
  let r := isSkipedSchema tableDB d.schema st.skiped
  let st1 :=
    { st with
      skiped := r.2.1,
      skipLogs := if r.2.2 then st.skipLogs ++ [d.schema] else st.skipLogs }
  if r.1 then (st1, none)
  else
    match env.getTable with
    | Except.error e => (st1, some e)
    | Except.ok _ =>
      match actionOf d.eventType with
      | Except.error e => (st1, some e)
      | Except.ok action =>
        let st2 := { st1 with
          dispatched := st1.dispatched ++ [(d.schema, d.table, action, d.rows)] }
        match env.dispatch with
        | Except.error e => (st2, some e)
        | Except.ok _ => (st2, none)

/-- One iteration of the `startSyncBinlog` loop body, sync.go lines 36-106:
deadline timeouts double the (dead) backoff variable and continue; other
pull errors are fatal; a received event resets the backoff, advances
`pos.Pos` to the header LogPos, and is routed by the event-kind switch,
with the save step reached only by the Rotate, XID and matching-Query
branches. -/
def syncStep (tableDB : String) (env : Env) (input : PullResult)
    (st : SyncState) : SyncState × Option String :=
  match input with
  | PullResult.timeout => ({ st with timeout := 2 * st.timeout }, none)
  | PullResult.err e => (st, some e)
  | PullResult.ev logPos body =>
    match body with
    | EventBody.rotate name p =>
      saveStep env true { st with timeout := 1, posName := name, posPos := p }
    | EventBody.rows d =>
      handleRowsEvent tableDB env d { st with timeout := 1, posPos := logPos }
    | EventBody.xid =>
      saveStep env false { st with timeout := 1, posPos := logPos }
    | EventBody.query schema q =>
      match expAlterTableFind q with
      | some (s1, s2) =>
        saveStep env true
          { st with
            timeout := 1,
            posPos := logPos,
            cacheCleared := st.cacheCleared ++ [((if s1 = "" then schema else s1), s2)] }
      | none => ({ st with timeout := 1, posPos := logPos }, none)
    | EventBody.other => ({ st with timeout := 1, posPos := logPos }, none)

/-- Iterated loop: process pull results (with their oracle outcomes) in
order until one is fatal. -/
def syncRun (tableDB : String) (steps : List (Env × PullResult))
    (st : SyncState) : SyncState × Option String :=
  match steps with
  | [] => (st, none)
  | (env, i) :: rest =>
    match syncStep tableDB env i st with
    | (st1, none) => syncRun tableDB rest st1
    | (st1, some e) => (st1, some e)

/-- A benign environment: persist succeeds, no master-info handler,
collaborators succeed. -/
def envOk : Env :=
  { saveResult := Except.ok true, hasHandler := false,
    sinkResult := Except.ok (), getTable := Except.ok (),
    dispatch := Except.ok () }

/-- `mysql.Position`. -/
structure Position : Type where
  name : String
  pos : Nat
deriving DecidableEq

/-- Modelled from the spec: `mysql.Position.Compare` lives in the mysql
package of this repository, outside the provided source; spec section 3
defines the order as total, "compare by file name generation order, then
offset", and `WaitUntilPos` only consumes the sign of the result. -/
def Position.compare (a b : Position) : Int :=
  if a.name > b.name then 1
  else if a.name < b.name then -1
  else if a.pos > b.pos then 1
  else if a.pos < b.pos then -1
  else 0

/-- The poll loop of `WaitUntilPos`, sync.go lines 170-182, discretized at
its 100 ms sleep: `n` is the index of the next poll, the fuel is the
number of polls that fit before the `timeout`-second timer of line 169
fires (10 per second).  `Except.ok k` means the k-th poll saw the target
reached; `Except.error n` is the timeout error of line 173 after n polls. -/
def waitLoop (cur : Nat → Position) (target : Position) :
    Nat → Nat → Except Nat Nat
  | n, 0 => Except.error n
  | n, fuel + 1 =>
    if (cur n).compare target ≥ 0 then Except.ok n
    else waitLoop cur target (n + 1) fuel

/-- `WaitUntilPos`, sync.go lines 164-185: a non-positive timeout is
replaced by 60 seconds (lines 165-167); `cur` gives the tracker position
`c.master.Pos()` read by each successive poll. -/
def waitUntilPos (cur : Nat → Position) (target : Position)
    (timeout : Int) : Except Nat Nat :=
  let t : Int := if timeout ≤ 0 then 60 else timeout
  waitLoop cur target 0 (10 * t.toNat)

/-! ## Helper lemmas on the save step and the rows handler -/

/-- `saveStep` records the Save call with the given forced flag at the
current position. -/
theorem saveStep_fst_saves (env : Env) (f : Bool) (st : SyncState) :
    (saveStep env f st).1.saves = st.saves ++ [(st.posName, st.posPos, f)] := by
  obtain ⟨sr, hh, sk, gt, dp⟩ := env
  rcases sr with e | b
  · simp [saveStep]
  · cases b <;> cases hh <;> rcases sk with e | u <;> simp [saveStep]

/-- `saveStep` updates the tracker name to the current position name. -/
theorem saveStep_fst_masterName (env : Env) (f : Bool) (st : SyncState) :
    (saveStep env f st).1.masterName = st.posName := by
  obtain ⟨sr, hh, sk, gt, dp⟩ := env
  rcases sr with e | b
  · simp [saveStep]
  · cases b <;> cases hh <;> rcases sk with e | u <;> simp [saveStep]

/-- `saveStep` updates the tracker offset to the current position offset. -/
theorem saveStep_fst_masterPos (env : Env) (f : Bool) (st : SyncState) :
    (saveStep env f st).1.masterPos = st.posPos := by
  obtain ⟨sr, hh, sk, gt, dp⟩ := env
  rcases sr with e | b
  · simp [saveStep]
  · cases b <;> cases hh <;> rcases sk with e | u <;> simp [saveStep]

/-- `saveStep` notifies the sink exactly when `Save` reports a persist and
a master-info handler is registered. -/
theorem saveStep_sink_cases (env : Env) (f : Bool) (st : SyncState) :
    (saveStep env f st).1.sinkSaves = st.sinkSaves ∨
      (env.saveResult = Except.ok true ∧ env.hasHandler = true ∧
        (saveStep env f st).1.sinkSaves = st.sinkSaves ++ [(st.posName, st.posPos)]) := by
  obtain ⟨sr, hh, sk, gt, dp⟩ := env
  rcases sr with e | b
  · simp [saveStep]
  · cases b <;> cases hh <;> rcases sk with e | u <;> simp [saveStep]

/-- Frame of `handleRowsEvent` on the Save log. -/
theorem handleRows_fst_saves (tableDB : String) (env : Env) (d : RowsData)
    (st : SyncState) : (handleRowsEvent tableDB env d st).1.saves = st.saves := by
  obtain ⟨sr, hh, sk, gt, dp⟩ := env
  unfold handleRowsEvent
  rcases gt with e | u <;> rcases h : actionOf d.eventType with msg | a <;>
    rcases dp with e2 | u2 <;> simp [h] <;> split <;> simp

/-- Frame of `handleRowsEvent` on the sink log. -/
theorem handleRows_fst_sinkSaves (tableDB : String) (env : Env) (d : RowsData)
    (st : SyncState) : (handleRowsEvent tableDB env d st).1.sinkSaves = st.sinkSaves := by
  obtain ⟨sr, hh, sk, gt, dp⟩ := env
  unfold handleRowsEvent
  rcases gt with e | u <;> rcases h : actionOf d.eventType with msg | a <;>
    rcases dp with e2 | u2 <;> simp [h] <;> split <;> simp

/-- Frame of `handleRowsEvent` on the tracker name. -/
theorem handleRows_fst_masterName (tableDB : String) (env : Env) (d : RowsData)
    (st : SyncState) : (handleRowsEvent tableDB env d st).1.masterName = st.masterName := by
  obtain ⟨sr, hh, sk, gt, dp⟩ := env
  unfold handleRowsEvent
  rcases gt with e | u <;> rcases h : actionOf d.eventType with msg | a <;>
    rcases dp with e2 | u2 <;> simp [h] <;> split <;> simp

/-- Frame of `handleRowsEvent` on the tracker offset. -/
theorem handleRows_fst_masterPos (tableDB : String) (env : Env) (d : RowsData)
    (st : SyncState) : (handleRowsEvent tableDB env d st).1.masterPos = st.masterPos := by
  obtain ⟨sr, hh, sk, gt, dp⟩ := env
  unfold handleRowsEvent
  rcases gt with e | u <;> rcases h : actionOf d.eventType with msg | a <;>
    rcases dp with e2 | u2 <;> simp [h] <;> split <;> simp

/-- Frame of `handleRowsEvent` on the cache-invalidation log. -/
theorem handleRows_fst_cacheCleared (tableDB : String) (env : Env) (d : RowsData)
    (st : SyncState) : (handleRowsEvent tableDB env d st).1.cacheCleared = st.cacheCleared := by
  obtain ⟨sr, hh, sk, gt, dp⟩ := env
  unfold handleRowsEvent
  rcases gt with e | u <;> rcases h : actionOf d.eventType with msg | a <;>
    rcases dp with e2 | u2 <;> simp [h] <;> split <;> simp

/-- Frame of `handleRowsEvent` on the position name and offset. -/
theorem handleRows_fst_pos (tableDB : String) (env : Env) (d : RowsData)
    (st : SyncState) : (handleRowsEvent tableDB env d st).1.posName = st.posName ∧
      (handleRowsEvent tableDB env d st).1.posPos = st.posPos ∧
      (handleRowsEvent tableDB env d st).1.timeout = st.timeout := by
  obtain ⟨sr, hh, sk, gt, dp⟩ := env
  unfold handleRowsEvent
  rcases gt with e | u <;> rcases h : actionOf d.eventType with msg | a <;>
    rcases dp with e2 | u2 <;> simp [h] <;> split <;> simp

/-! ## C1: which events reach the save step -/

/-- C1: in the sync loop the save step (tracker update, Save(forced),
conditional sink notification) is reached exactly for Rotate events, XID
events, and Query events matching the ALTER TABLE pattern; Save is forced
for Rotate and recognized DDL, best-effort for XID; every other event kind
leaves the Save log, the tracker and the sink untouched; and the sink is
notified only when Save reports that a persist actually occurred. -/
theorem save_points_exactly_rotate_xid_ddl (tableDB : String) (env : Env)
    (lp : Nat) (st : SyncState) :
    (∀ n p, (syncStep tableDB env (PullResult.ev lp (EventBody.rotate n p)) st).1.saves
        = st.saves ++ [(n, p, true)]) ∧
    ((syncStep tableDB env (PullResult.ev lp EventBody.xid) st).1.saves
        = st.saves ++ [(st.posName, lp, false)]) ∧
    (∀ sch q g, expAlterTableFind q = some g →
      (syncStep tableDB env (PullResult.ev lp (EventBody.query sch q)) st).1.saves
        = st.saves ++ [(st.posName, lp, true)]) ∧
    (∀ sch q, expAlterTableFind q = none →
      syncStep tableDB env (PullResult.ev lp (EventBody.query sch q)) st
        = ({ st with timeout := 1, posPos := lp }, none)) ∧
    (∀ d, (syncStep tableDB env (PullResult.ev lp (EventBody.rows d)) st).1.saves = st.saves ∧
      (syncStep tableDB env (PullResult.ev lp (EventBody.rows d)) st).1.sinkSaves = st.sinkSaves ∧
      (syncStep tableDB env (PullResult.ev lp (EventBody.rows d)) st).1.masterName = st.masterName ∧
      (syncStep tableDB env (PullResult.ev lp (EventBody.rows d)) st).1.masterPos = st.masterPos) ∧
    (syncStep tableDB env (PullResult.ev lp EventBody.other) st
        = ({ st with timeout := 1, posPos := lp }, none)) ∧
    (∀ b, (syncStep tableDB env (PullResult.ev lp b) st).1.sinkSaves = st.sinkSaves ∨
      (env.saveResult = Except.ok true ∧ env.hasHandler = true ∧
        (syncStep tableDB env (PullResult.ev lp b) st).1.sinkSaves
          = st.sinkSaves ++ [((syncStep tableDB env (PullResult.ev lp b) st).1.masterName,
              (syncStep tableDB env (PullResult.ev lp b) st).1.masterPos)])) := by
  refine ⟨?_, ?_, ?_, ?_, ?_, ?_, ?_⟩
  · intro n p
    simp [syncStep, saveStep_fst_saves]
  · simp [syncStep, saveStep_fst_saves]
  · intro sch q g hq
    obtain ⟨s1, s2⟩ := g
    simp [syncStep, hq, saveStep_fst_saves]
  · intro sch q hq
    simp [syncStep, hq]
  · intro d
    exact ⟨by simp [syncStep, handleRows_fst_saves],
      by simp [syncStep, handleRows_fst_sinkSaves],
      by simp [syncStep, handleRows_fst_masterName],
      by simp [syncStep, handleRows_fst_masterPos]⟩
  · rfl
  · intro b
    cases b with
    | rotate n p =>
      simp only [syncStep]
      rcases saveStep_sink_cases env true
          { st with timeout := 1, posName := n, posPos := p } with h | ⟨h1, h2, h3⟩
      · exact Or.inl (by simpa using h)
      · refine Or.inr ⟨h1, h2, ?_⟩
        rw [saveStep_fst_masterName, saveStep_fst_masterPos]
        simpa using h3
    | rows d =>
      exact Or.inl (by simp [syncStep, handleRows_fst_sinkSaves])
    | xid =>
      simp only [syncStep]
      rcases saveStep_sink_cases env false
          { st with timeout := 1, posPos := lp } with h | ⟨h1, h2, h3⟩
      · exact Or.inl (by simpa using h)
      · refine Or.inr ⟨h1, h2, ?_⟩
        rw [saveStep_fst_masterName, saveStep_fst_masterPos]
        simpa using h3
    | query sch q =>
      rcases hq : expAlterTableFind q with _ | ⟨s1, s2⟩
      · exact Or.inl (by simp [syncStep, hq])
      · simp only [syncStep, hq]
        rcases saveStep_sink_cases env true
            { st with
              timeout := 1,
              posPos := lp,
              cacheCleared := st.cacheCleared ++ [((if s1 = "" then sch else s1), s2)] }
          with h | ⟨h1, h2, h3⟩
        · exact Or.inl (by simpa using h)
        · refine Or.inr ⟨h1, h2, ?_⟩
          rw [saveStep_fst_masterName, saveStep_fst_masterPos]
          simpa using h3
    | other => exact Or.inl rfl

/-! ## C2: the backoff variable versus the wait actually used -/

/-- C2 (code defect): the `timeout` backoff variable of sync.go line 33 is
doubled on every consecutive deadline timeout (2^n after n timeouts,
reset to 1 by any received event), matching the spec's arithmetic, but it
is dead: line 37 passes the constant 2-second deadline to every
`GetEvent` pull, so the wait of the first attempt is 2 units rather than
1 and the wait after two timeouts is still 2 rather than 4. -/
theorem backoff_variable_is_dead :
    (∀ st : SyncState, getEventWait st = 2) ∧
    (∀ tableDB env n (st : SyncState),
      (syncRun tableDB (List.replicate n (env, PullResult.timeout)) st).1.timeout
        = 2 ^ n * st.timeout) ∧
    ((syncRun "" (List.replicate 2 (envOk, PullResult.timeout))
        (initSyncState "mysql-bin.000001" 4)).1.timeout = 4 ∧
      getEventWait ((syncRun "" (List.replicate 2 (envOk, PullResult.timeout))
        (initSyncState "mysql-bin.000001" 4)).1) = 2 ∧ (2 : Nat) ≠ 4 ∧
      getEventWait (initSyncState "mysql-bin.000001" 4) = 2 ∧ (2 : Nat) ≠ 1) := by
  refine ⟨fun _ => rfl, ?_, by decide⟩
  intro tableDB env n st
  induction n generalizing st with
  | zero => simp [syncRun]
  | succ m ih =>
    simp only [List.replicate_succ, syncRun, syncStep]
    rw [ih]
    ring

/-! ## C3: DDL detection -/

/-- C3: the DDL detector recognizes ALTER TABLE case-insensitively with
optional backtick quoting and optional schema qualifier, returning the
(schema, table) pair; an omitted schema yields an empty first group and
the caller substitutes the event's own default schema; CREATE TABLE does
not match and the event is ignored with no cache invalidation and no
save. -/
theorem ddl_detector_extraction :
    (expAlterTableFind "ALTER TABLE `shop`.`orders` ADD COLUMN x INT"
        = some ("shop", "orders")) ∧
    (expAlterTableFind "ALTER TABLE orders RENAME COLUMN c1 TO c2"
        = some ("", "orders")) ∧
    (expAlterTableFind "alter table `shop`.`orders` ADD COLUMN x INT"
        = some ("shop", "orders")) ∧
    (expAlterTableFind "CREATE TABLE orders (id INT)" = none) ∧
    ((syncStep "" envOk
        (PullResult.ev 600 (EventBody.query "shop" "ALTER TABLE orders RENAME COLUMN c1 TO c2"))
        (initSyncState "mysql-bin.000001" 4)).1.cacheCleared = [("shop", "orders")]) ∧
    ((syncStep "" envOk
        (PullResult.ev 600 (EventBody.query "shop" "CREATE TABLE orders (id INT)"))
        (initSyncState "mysql-bin.000001" 4)).1.cacheCleared = []) ∧
    ((syncStep "" envOk
        (PullResult.ev 600 (EventBody.query "shop" "CREATE TABLE orders (id INT)"))
        (initSyncState "mysql-bin.000001" 4)).1.saves = []) ∧
    ((syncStep "" envOk
        (PullResult.ev 600 (EventBody.query "shop" "CREATE TABLE orders (id INT)"))
        (initSyncState "mysql-bin.000001" 4)).2 = none) := by
  exact ⟨by decide, by decide, by decide, by decide, by decide, by decide,
    by decide, by decide⟩

/-! ## C4: row action mapping -/

/-- C4: the row event translator maps write-rows (either on-wire
sub-version) to Insert, delete-rows to Delete, update-rows to Update; any
other subtype produces the unsupported-operation error, which terminates
the sync loop iteration with that error. -/
theorem rows_action_mapping :
    (actionOf EventType.WRITE_ROWS_EVENTv1 = Except.ok RowAction.Insert) ∧
    (actionOf EventType.WRITE_ROWS_EVENTv2 = Except.ok RowAction.Insert) ∧
    (actionOf EventType.DELETE_ROWS_EVENTv1 = Except.ok RowAction.Delete) ∧
    (actionOf EventType.DELETE_ROWS_EVENTv2 = Except.ok RowAction.Delete) ∧
    (actionOf EventType.UPDATE_ROWS_EVENTv1 = Except.ok RowAction.Update) ∧
    (actionOf EventType.UPDATE_ROWS_EVENTv2 = Except.ok RowAction.Update) ∧
    (∀ t : EventType,
      t ∉ [EventType.WRITE_ROWS_EVENTv1, EventType.WRITE_ROWS_EVENTv2,
        EventType.DELETE_ROWS_EVENTv1, EventType.DELETE_ROWS_EVENTv2,
        EventType.UPDATE_ROWS_EVENTv1, EventType.UPDATE_ROWS_EVENTv2] →
      actionOf t = Except.error (eventTypeName t ++ " not supported now")) ∧
    (∀ tableDB env lp (d : RowsData) st msg,
      (isSkipedSchema tableDB d.schema st.skiped).1 = false →
      env.getTable = Except.ok () →
      actionOf d.eventType = Except.error msg →
      (syncStep tableDB env (PullResult.ev lp (EventBody.rows d)) st).2 = some msg) := by
  refine ⟨rfl, rfl, rfl, rfl, rfl, rfl, ?_, ?_⟩
  · intro t ht
    cases t <;> first | rfl | exact absurd (by decide) ht
  · intro tableDB env lp d st msg hskip hgt hact
    simp [syncStep, handleRowsEvent, hskip, hgt, hact]

/-- Witness for `rows_action_mapping` at the GTID subtype. -/
theorem rows_action_mapping_witness :
    actionOf EventType.GTID_EVENT = Except.error "GTIDEvent not supported now" ∧
    (syncStep "" envOk
        (PullResult.ev 700 (EventBody.rows ⟨"db", "t", EventType.GTID_EVENT, []⟩))
        (initSyncState "mysql-bin.000001" 4)).2
      = some "GTIDEvent not supported now" :=
  ⟨rows_action_mapping.2.2.2.2.2.2.1 EventType.GTID_EVENT (by decide),
    rows_action_mapping.2.2.2.2.2.2.2 "" envOk 700
      ⟨"db", "t", EventType.GTID_EVENT, []⟩ (initSyncState "mysql-bin.000001" 4)
      "GTIDEvent not supported now" (by decide) rfl rfl⟩

/-! ## C5: schema filter -/

/-- C5: the schema filter returns false for every schema when no scope is
configured, false when the schema equals the configured scope, and true
otherwise; a skipped schema is remembered in the shared list so repeated
calls return the skip decision every time but emit the skipped log note
only on the first call. -/
theorem schema_filter_memoization :
    (∀ schema l, isSkipedSchema "" schema l = (false, l, false)) ∧
    (∀ db l, isSkipedSchema db db l = (false, l, false)) ∧
    (∀ db schema l, db ≠ "" → db ≠ schema →
      (isSkipedSchema db schema l).1 = true) ∧
    (∀ db schema l, db ≠ "" → db ≠ schema → schema ∉ l →
      isSkipedSchema db schema l = (true, l ++ [schema], true) ∧
      isSkipedSchema db schema (isSkipedSchema db schema l).2.1
        = (true, l ++ [schema], false)) := by
  refine ⟨?_, ?_, ?_, ?_⟩
  · intro schema l; simp [isSkipedSchema]
  · intro db l; simp [isSkipedSchema]
  · intro db schema l h1 h2
    simp [isSkipedSchema, h1, h2]
    split <;> simp
  · intro db schema l h1 h2 h3
    constructor
    · simp [isSkipedSchema, h1, h2, h3]
    · simp [isSkipedSchema, h1, h2, h3]

/-- Witness for `schema_filter_memoization` with scope "app" and schema
"other": skipped both times, logged once. -/
theorem schema_filter_memoization_witness :
    (isSkipedSchema "app" "other" [] = (true, ["other"], true) ∧
      isSkipedSchema "app" "other" (isSkipedSchema "app" "other" []).2.1
        = (true, ["other"], false)) ∧
    (isSkipedSchema "app" "other" []).1 = true ∧
    isSkipedSchema "" "other" [] = (false, [], false) ∧
    isSkipedSchema "app" "app" [] = (false, [], false) :=
  ⟨schema_filter_memoization.2.2.2 "app" "other" [] (by decide) (by decide)
      (by decide),
    schema_filter_memoization.2.2.1 "app" "other" [] (by decide) (by decide),
    schema_filter_memoization.1 "other" [],
    schema_filter_memoization.2.1 "app" []⟩

/-! ## C6: RowChange for a skipped schema -/

/-- C6 counterexample: for a first-seen skipped schema the iteration
changes more than the in-memory offset — the shared skip-memo list (and
its log record) gain the schema — so the state is not merely the old
state with the offset advanced. -/
theorem skipped_rows_not_only_offset :
    syncStep "app" envOk
        (PullResult.ev 500
          (EventBody.rows ⟨"other", "t", EventType.WRITE_ROWS_EVENTv1, []⟩))
        (initSyncState "mysql-bin.000001" 4)
      ≠ ({ initSyncState "mysql-bin.000001" 4 with posPos := 500 }, none) := by
  decide

/-- C6 (amended): for a RowChange whose schema is skipped, the iteration
succeeds, advances only the in-memory offset (resetting the backoff
variable as every received event does), and the schema filter may
additionally memoize and log the schema on first encounter; the tracker,
Save log, sink, cache-invalidation and dispatch state are unchanged, and
the outcome is independent of every collaborator outcome (no table
metadata is resolved, nothing is dispatched, no save step runs). -/
theorem skipped_rows_frame (tableDB : String) (env env2 : Env) (lp : Nat)
    (d : RowsData) (st : SyncState) (h1 : tableDB ≠ "") (h2 : tableDB ≠ d.schema) :
    syncStep tableDB env (PullResult.ev lp (EventBody.rows d)) st
      = ({ st with
            timeout := 1,
            posPos := lp,
            skiped := if d.schema ∈ st.skiped then st.skiped
              else st.skiped ++ [d.schema],
            skipLogs := if d.schema ∈ st.skiped then st.skipLogs
              else st.skipLogs ++ [d.schema] }, none) ∧
    syncStep tableDB env (PullResult.ev lp (EventBody.rows d)) st
      = syncStep tableDB env2 (PullResult.ev lp (EventBody.rows d)) st := by
  have key : ∀ e : Env,
      syncStep tableDB e (PullResult.ev lp (EventBody.rows d)) st
        = ({ st with
              timeout := 1,
              posPos := lp,
              skiped := if d.schema ∈ st.skiped then st.skiped
                else st.skiped ++ [d.schema],
              skipLogs := if d.schema ∈ st.skiped then st.skipLogs
                else st.skipLogs ++ [d.schema] }, none) := by
    intro e
    obtain ⟨sr, hh, sk, gt, dp⟩ := e
    by_cases hm : d.schema ∈ st.skiped <;>
      simp [syncStep, handleRowsEvent, isSkipedSchema, h1, h2, hm]
  exact ⟨key env, (key env).trans (key env2).symm⟩

/-- Witness for `skipped_rows_frame` at a concrete skipped schema. -/
theorem skipped_rows_frame_witness :
    syncStep "app" envOk
        (PullResult.ev 500
          (EventBody.rows ⟨"other", "t", EventType.WRITE_ROWS_EVENTv1, []⟩))
        (initSyncState "mysql-bin.000001" 4)
      = ({ initSyncState "mysql-bin.000001" 4 with
            posPos := 500, skiped := ["other"], skipLogs := ["other"] }, none) := by
  have h := (skipped_rows_frame "app" envOk envOk 500
    ⟨"other", "t", EventType.WRITE_ROWS_EVENTv1, []⟩
    (initSyncState "mysql-bin.000001" 4) (by decide) (by decide)).1
  simpa using h

/-! ## C7: fatal errors terminate the loop -/

/-- An environment whose persist call fails. -/
def envSaveFail : Env :=
  { envOk with saveResult := Except.error "save failed" }

/-- An environment with a master-info handler whose SavePos fails. -/
def envSinkFail : Env :=
  { envOk with
    saveResult := Except.ok true,
    hasHandler := true,
    sinkResult := Except.error "sink failed" }

/-- An environment whose downstream row dispatch fails. -/
def envDispatchFail : Env :=
  { envOk with dispatch := Except.error "handler failed" }

/-- C7: a non-timeout transport failure, a downstream handler failure
during row dispatch, an unsupported row subtype, and a persistence
failure (from Save or from the sink's SavePos) each terminate the sync
loop iteration with the error; only the pull-timeout path continues. -/
theorem fatal_errors_abort_loop :
    (∀ tableDB env msg st,
      syncStep tableDB env (PullResult.err msg) st = (st, some msg)) ∧
    (∀ tableDB env st, (syncStep tableDB env PullResult.timeout st).2 = none) ∧
    (∀ tableDB env lp (d : RowsData) st msg,
      (isSkipedSchema tableDB d.schema st.skiped).1 = false →
      env.getTable = Except.ok () →
      (∃ a, actionOf d.eventType = Except.ok a) →
      env.dispatch = Except.error msg →
      (syncStep tableDB env (PullResult.ev lp (EventBody.rows d)) st).2 = some msg) ∧
    (∀ tableDB env lp (d : RowsData) st msg,
      (isSkipedSchema tableDB d.schema st.skiped).1 = false →
      env.getTable = Except.ok () →
      actionOf d.eventType = Except.error msg →
      (syncStep tableDB env (PullResult.ev lp (EventBody.rows d)) st).2 = some msg) ∧
    (∀ tableDB env lp st msg, env.saveResult = Except.error msg →
      (syncStep tableDB env (PullResult.ev lp EventBody.xid) st).2 = some msg) ∧
    (∀ tableDB env n p lp st msg, env.saveResult = Except.error msg →
      (syncStep tableDB env (PullResult.ev lp (EventBody.rotate n p)) st).2 = some msg) ∧
    (∀ tableDB env lp st msg, env.saveResult = Except.ok true →
      env.hasHandler = true → env.sinkResult = Except.error msg →
      (syncStep tableDB env (PullResult.ev lp EventBody.xid) st).2 = some msg) := by
  refine ⟨?_, ?_, ?_, ?_, ?_, ?_, ?_⟩
  · intro tableDB env msg st; rfl
  · intro tableDB env st; rfl
  · intro tableDB env lp d st msg hskip hgt ⟨a, ha⟩ hdp
    simp [syncStep, handleRowsEvent, hskip, hgt, ha, hdp]
  · intro tableDB env lp d st msg hskip hgt hact
    simp [syncStep, handleRowsEvent, hskip, hgt, hact]
  · intro tableDB env lp st msg hsv
    simp [syncStep, saveStep, hsv]
  · intro tableDB env n p lp st msg hsv
    simp [syncStep, saveStep, hsv]
  · intro tableDB env lp st msg hsv hh hsk
    simp [syncStep, saveStep, hsv, hh, hsk]

/-- Witness for `fatal_errors_abort_loop` at concrete failures. -/
theorem fatal_errors_abort_loop_witness :
    syncStep "" envOk (PullResult.err "conn reset") (initSyncState "b" 4)
        = (initSyncState "b" 4, some "conn reset") ∧
    (syncStep "" envOk PullResult.timeout (initSyncState "b" 4)).2 = none ∧
    (syncStep "" envDispatchFail
        (PullResult.ev 700
          (EventBody.rows ⟨"db", "t", EventType.WRITE_ROWS_EVENTv1, []⟩))
        (initSyncState "b" 4)).2 = some "handler failed" ∧
    (syncStep "" envOk
        (PullResult.ev 700 (EventBody.rows ⟨"db", "t", EventType.GTID_EVENT, []⟩))
        (initSyncState "b" 4)).2 = some "GTIDEvent not supported now" ∧
    (syncStep "" envSaveFail (PullResult.ev 800 EventBody.xid)
        (initSyncState "b" 4)).2 = some "save failed" ∧
    (syncStep "" envSaveFail (PullResult.ev 800 (EventBody.rotate "c" 4))
        (initSyncState "b" 4)).2 = some "save failed" ∧
    (syncStep "" envSinkFail (PullResult.ev 800 EventBody.xid)
        (initSyncState "b" 4)).2 = some "sink failed" :=
  ⟨fatal_errors_abort_loop.1 "" envOk "conn reset" (initSyncState "b" 4),
    fatal_errors_abort_loop.2.1 "" envOk (initSyncState "b" 4),
    fatal_errors_abort_loop.2.2.1 "" envDispatchFail 700
      ⟨"db", "t", EventType.WRITE_ROWS_EVENTv1, []⟩ (initSyncState "b" 4)
      "handler failed" (by decide) (by rfl) ⟨RowAction.Insert, rfl⟩ (by rfl),
    fatal_errors_abort_loop.2.2.2.1 "" envOk 700
      ⟨"db", "t", EventType.GTID_EVENT, []⟩ (initSyncState "b" 4)
      "GTIDEvent not supported now" (by decide) (by rfl) (by rfl),
    fatal_errors_abort_loop.2.2.2.2.1 "" envSaveFail 800 (initSyncState "b" 4)
      "save failed" (by rfl),
    fatal_errors_abort_loop.2.2.2.2.2.1 "" envSaveFail "c" 4 800
      (initSyncState "b" 4) "save failed" (by rfl),
    fatal_errors_abort_loop.2.2.2.2.2.2 "" envSinkFail 800 (initSyncState "b" 4)
      "sink failed" (by rfl) (by rfl) (by rfl)⟩

/-! ## C8 and C9: WaitUntilPos -/

/-- `waitLoop` succeeds at the first poll whose position reaches the
target, provided it lies within the poll budget. -/
theorem waitLoop_ok (cur : Nat → Position) (target : Position) :
    ∀ fuel n k, n ≤ k → k < n + fuel →
      (cur k).compare target ≥ 0 →
      (∀ j, n ≤ j → j < k → (cur j).compare target < 0) →
      waitLoop cur target n fuel = Except.ok k := by
  intro fuel
  induction fuel with
  | zero => intro n k h1 h2 _ _; omega
  | succ m ih =>
    intro n k h1 h2 hk hbelow
    rcases eq_or_lt_of_le h1 with rfl | hlt
    · unfold waitLoop
      rw [if_pos hk]
    · have hneg : (cur n).compare target < 0 := hbelow n le_rfl hlt
      unfold waitLoop
      rw [if_neg (not_le.mpr hneg)]
      exact ih (n + 1) k hlt (by omega) hk (fun j hj1 hj2 => hbelow j (by omega) hj2)

/-- `waitLoop` exhausts its whole poll budget and returns the timeout
error when the position never reaches the target. -/
theorem waitLoop_err (cur : Nat → Position) (target : Position)
    (h : ∀ n, (cur n).compare target < 0) :
    ∀ fuel n, waitLoop cur target n fuel = Except.error (n + fuel) := by
  intro fuel
  induction fuel with
  | zero => intro n; rfl
  | succ m ih =>
    intro n
    unfold waitLoop
    rw [if_neg (not_le.mpr (h n))]
    rw [ih (n + 1)]
    congr 1
    omega

/-- C8: WaitUntilPos polls the tracked position at the 100 ms interval and
succeeds at the first poll whose position compares >= the target under
the (file name, offset) order; when the target is never reached it
returns the timeout error after exactly the polls that fit in the window,
so with a 1-second timeout against a stuck tracker it times out after 10
polls (about 1 second) — neither immediately nor unboundedly. -/
theorem waitUntilPos_poll_then_timeout :
    (∀ cur target (t : Int), 0 < t → ∀ k, k < 10 * t.toNat →
      (cur k).compare target ≥ 0 →
      (∀ j, j < k → (cur j).compare target < 0) →
      waitUntilPos cur target t = Except.ok k) ∧
    (∀ cur target (t : Int), 0 < t →
      (∀ n, (cur n).compare target < 0) →
      waitUntilPos cur target t = Except.error (10 * t.toNat)) ∧
    (∀ cur target, (∀ n : Nat, (cur n).compare target < 0) →
      waitUntilPos cur target 1 = Except.error 10 ∧ (0 : Nat) < 10) := by
  have key : ∀ cur target (t : Int), 0 < t →
      waitUntilPos cur target t = waitLoop cur target 0 (10 * t.toNat) := by
    intro cur target t ht
    simp only [waitUntilPos]
    rw [if_neg (by omega)]
  refine ⟨?_, ?_, ?_⟩
  · intro cur target t ht k hk hcmp hbelow
    rw [key cur target t ht]
    exact waitLoop_ok cur target (10 * t.toNat) 0 k (Nat.zero_le k) (by omega)
      hcmp (fun j _ hj => hbelow j hj)
  · intro cur target t ht hstuck
    rw [key cur target t ht]
    simpa using waitLoop_err cur target hstuck (10 * t.toNat) 0
  · intro cur target hstuck
    refine ⟨?_, by decide⟩
    rw [key cur target 1 (by decide)]
    simpa using waitLoop_err cur target hstuck 10 0

/-- A tracker stuck strictly below the target. -/
def stuckCur : Nat → Position := fun _ => ⟨"fileA", 100⟩

/-- A tracker that reaches offset 700 from the fourth poll on. -/
def progressCur : Nat → Position :=
  fun n => if n < 3 then ⟨"fileA", 100⟩ else ⟨"fileA", 700⟩

/-- Witness for `waitUntilPos_poll_then_timeout`: a stuck tracker times
out after the 10 polls of a 1-second window; a progressing tracker
succeeds at its first adequate poll. -/
theorem waitUntilPos_poll_then_timeout_witness :
    waitUntilPos stuckCur ⟨"fileB", 500⟩ 1 = Except.error 10 ∧
    waitUntilPos progressCur ⟨"fileA", 500⟩ 2 = Except.ok 3 := by
  have hAB : Position.compare ⟨"fileA", 100⟩ ⟨"fileB", 500⟩ = -1 := by
    have h1 : ¬ (("fileA" : String) > "fileB") := by
      rw [gt_iff_lt, String.lt_iff_toList_lt]; decide
    have h2 : ("fileA" : String) < "fileB" := by
      rw [String.lt_iff_toList_lt]; decide
    simp [Position.compare, h1, h2]
  have hsame : ∀ p q : Nat, Position.compare ⟨"fileA", p⟩ ⟨"fileA", q⟩
      = if q < p then 1 else if p < q then -1 else 0 := by
    intro p q
    simp [Position.compare, lt_irrefl]
  constructor
  · exact (waitUntilPos_poll_then_timeout.2.2 stuckCur ⟨"fileB", 500⟩
      (fun n => by simp only [stuckCur]; rw [hAB]; norm_num)).1
  · refine waitUntilPos_poll_then_timeout.1 progressCur ⟨"fileA", 500⟩ 2
      (by decide) 3 (by decide) ?_ ?_
    · simp only [progressCur]
      rw [if_neg (by norm_num), hsame]
      norm_num
    · intro j hj
      simp only [progressCur]
      rw [if_pos hj, hsame]
      norm_num

/-- C9: a WaitUntilPos call with a non-positive timeout behaves exactly
as a call with timeout 60, by the silent default of sync.go lines
165-167. -/
theorem waitUntilPos_nonpositive_default (cur : Nat → Position)
    (target : Position) (t : Int) (h : t ≤ 0) :
    waitUntilPos cur target t = waitUntilPos cur target 60 := by
  simp only [waitUntilPos]
  rw [if_pos h, if_neg (by norm_num)]

/-- Witness for `waitUntilPos_nonpositive_default` at timeout -3. -/
theorem waitUntilPos_nonpositive_default_witness :
    waitUntilPos stuckCur ⟨"fileB", 500⟩ (-3)
      = waitUntilPos stuckCur ⟨"fileB", 500⟩ 60 :=
  waitUntilPos_nonpositive_default stuckCur ⟨"fileB", 500⟩ (-3) (by decide)

/-! ## C10: the shared skip list is append-only and duplicate-free -/

/-- A sequence of `isSkipedSchema` calls threaded through the single
shared `skipedSchemaList`; each call carries its own configured scope,
as calls from distinct Canal instances in one process do, since the list
and its lock are package-level globals (sync.go lines 19-21). -/
def runSkips : List (String × String) → List String → List String
  | [], l => l
  | (db, schema) :: rest, l => runSkips rest (isSkipedSchema db schema l).2.1

/-- A call whose schema is already recorded leaves the list unchanged. -/
theorem isSkiped_list_mem (db schema : String) (l : List String)
    (h : schema ∈ l) : (isSkipedSchema db schema l).2.1 = l := by
  unfold isSkipedSchema
  split <;> simp [h]

/-- One call only ever appends to the list. -/
theorem isSkiped_list_append (db schema : String) (l : List String) :
    ∃ t, (isSkipedSchema db schema l).2.1 = l ++ t := by
  unfold isSkipedSchema
  split
  · split
    · exact ⟨[], by simp⟩
    · exact ⟨[schema], rfl⟩
  · exact ⟨[], by simp⟩

/-- One call preserves freedom from duplicates. -/
theorem isSkiped_list_nodup (db schema : String) (l : List String)
    (h : l.Nodup) : ((isSkipedSchema db schema l).2.1).Nodup := by
  unfold isSkipedSchema
  split
  · split
    · exact h
    · next hmem => simp [List.nodup_append, h, hmem]
  · exact h

/-- Any call sequence only ever appends to the list. -/
theorem runSkips_append (calls : List (String × String)) :
    ∀ l, ∃ t, runSkips calls l = l ++ t := by
  induction calls with
  | nil => intro l; exact ⟨[], by simp [runSkips]⟩
  | cons c rest ih =>
    intro l
    obtain ⟨db, schema⟩ := c
    obtain ⟨t1, ht1⟩ := isSkiped_list_append db schema l
    obtain ⟨t2, ht2⟩ := ih (isSkipedSchema db schema l).2.1
    refine ⟨t1 ++ t2, ?_⟩
    show runSkips rest (isSkipedSchema db schema l).2.1 = l ++ (t1 ++ t2)
    rw [ht2, ht1, List.append_assoc]

/-- Any call sequence preserves freedom from duplicates. -/
theorem runSkips_nodup (calls : List (String × String)) :
    ∀ l, l.Nodup → (runSkips calls l).Nodup := by
  induction calls with
  | nil => intro l h; simpa [runSkips] using h
  | cons c rest ih =>
    intro l h
    obtain ⟨db, schema⟩ := c
    exact ih _ (isSkiped_list_nodup db schema l h)

/-- C10: the skip-schema list shared by every Canal instance in the
process is append-only (an entry once inserted is never removed, whatever
mixture of configured scopes performs the calls) and a given schema is
appended at most once, so starting from the empty initial global the list
never holds duplicate entries. -/
theorem skip_list_append_once :
    (∀ db schema l, schema ∈ l → (isSkipedSchema db schema l).2.1 = l) ∧
    (∀ db schema l, ∃ t, (isSkipedSchema db schema l).2.1 = l ++ t) ∧
    (∀ calls l, ∃ t, runSkips calls l = l ++ t) ∧
    (∀ db schema l, l.Nodup → ((isSkipedSchema db schema l).2.1).Nodup) ∧
    (∀ calls, (runSkips calls []).Nodup) :=
  ⟨isSkiped_list_mem, isSkiped_list_append,
    fun calls l => runSkips_append calls l,
    isSkiped_list_nodup,
    fun calls => runSkips_nodup calls [] List.nodup_nil⟩

/-- Witness for `skip_list_append_once`: two Canal instances with scopes
"app" and "db2" share the list; the duplicate insertion attempt for "a"
is suppressed. -/
theorem skip_list_append_once_witness :
    (isSkipedSchema "app" "x" ["x"]).2.1 = ["x"] ∧
    runSkips [("app", "a"), ("db2", "a"), ("app", "b")] [] = ["a", "b"] ∧
    (runSkips [("app", "a"), ("db2", "a"), ("app", "b")] []).Nodup :=
  ⟨skip_list_append_once.1 "app" "x" ["x"] (by decide),
    by decide,
    skip_list_append_once.2.2.2.2 [("app", "a"), ("db2", "a"), ("app", "b")]⟩

/-- Witness for `save_points_exactly_rotate_xid_ddl` at concrete rotate,
transaction-end, recognized-DDL and unrecognized-query events. -/
theorem save_points_exactly_rotate_xid_ddl_witness :
    (syncStep "" envOk (PullResult.ev 0 (EventBody.rotate "mysql-bin.000002" 4))
        (initSyncState "mysql-bin.000001" 4)).1.saves
      = [("mysql-bin.000002", 4, true)] ∧
    (syncStep "" envOk (PullResult.ev 900 EventBody.xid)
        (initSyncState "mysql-bin.000001" 4)).1.saves
      = [("mysql-bin.000001", 900, false)] ∧
    (syncStep "" envOk
        (PullResult.ev 950 (EventBody.query "shop" "ALTER TABLE orders ADD c INT"))
        (initSyncState "mysql-bin.000001" 4)).1.saves
      = [("mysql-bin.000001", 950, true)] ∧
    syncStep "" envOk
        (PullResult.ev 980 (EventBody.query "shop" "CREATE TABLE orders (id INT)"))
        (initSyncState "mysql-bin.000001" 4)
      = ({ initSyncState "mysql-bin.000001" 4 with timeout := 1, posPos := 980 },
          none) := by
  refine ⟨?_, ?_, ?_, ?_⟩
  · have h := (save_points_exactly_rotate_xid_ddl "" envOk 0
      (initSyncState "mysql-bin.000001" 4)).1 "mysql-bin.000002" 4
    simpa [initSyncState] using h
  · have h := (save_points_exactly_rotate_xid_ddl "" envOk 900
      (initSyncState "mysql-bin.000001" 4)).2.1
    simpa [initSyncState] using h
  · have h := (save_points_exactly_rotate_xid_ddl "" envOk 950
      (initSyncState "mysql-bin.000001" 4)).2.2.1 "shop"
      "ALTER TABLE orders ADD c INT" ("", "orders") (by decide)
    simpa [initSyncState] using h
  · exact (save_points_exactly_rotate_xid_ddl "" envOk 980
      (initSyncState "mysql-bin.000001" 4)).2.2.2.1 "shop"
      "CREATE TABLE orders (id INT)" (by decide)
